import Mathlib

deriving instance DecidableEq for Except

/-!
Verification of the Mergington High School activities API (`src/app.py`).

The Python module keeps three pieces of in-memory state: a credential store
`teacher_credentials : dict[str, str]`, a session table
`teacher_sessions : dict[str, str]` (token -> username), and an activity
registry `activities : dict[str, Activity]`.  Python dicts are modelled as
association lists with unique keys preserved by the operations below:
`dictGet` is `d.get(k)`, `dictSet` is `d[k] = v` (overwrite in place if the
key is present, append otherwise), `dictPop` is `d.pop(k, None)`.
-/

namespace Mergington

/-- Model of `d.get(k)` on a Python dict represented as an association list. -/
def dictGet {α : Type} : List (String × α) → String → Option α
  | [], _ => none
  | p :: t, k => if p.1 = k then some p.2 else dictGet t k

/-- Model of `k in d` on a Python dict. -/
def dictHasKey {α : Type} : List (String × α) → String → Bool
  | [], _ => false
  | p :: t, k => p.1 = k || dictHasKey t k

/-- Model of `d[k] = v`: overwrite an existing key in place, else append. -/
def dictSet {α : Type} (d : List (String × α)) (k : String) (v : α) :
    List (String × α) :=
  if dictHasKey d k then d.map (fun p => if p.1 = k then (k, v) else p)
  else d ++ [(k, v)]

/-- Model of `d.pop(k, None)`: drop every binding of key `k`. -/
def dictPop {α : Type} : List (String × α) → String → List (String × α)
  | [], _ => []
  | p :: t, k => if p.1 = k then dictPop t k else p :: dictPop t k

theorem dictGet_map_set_ne {α : Type} (d : List (String × α)) (k k' : String)
    (v : α) (h : k' ≠ k) :
    dictGet (d.map (fun p => if p.1 = k then (k, v) else p)) k' = dictGet d k' := by
  induction d with
  | nil => rfl
  | cons p t ih =>
    by_cases hp : p.1 = k
    · simp only [List.map_cons, hp, if_true, dictGet]
      rw [if_neg (show ¬((k, v).1 = k') from fun hc => h hc.symm),
          if_neg (show ¬(k = k') from fun hc => h hc.symm)]
      exact ih
    · simp only [List.map_cons, hp, if_false, dictGet]
      by_cases hpk : p.1 = k'
      · simp [hpk]
      · simp only [hpk, if_false]
        exact ih

theorem dictGet_map_set_self {α : Type} (d : List (String × α)) (k : String)
    (v : α) (h : dictHasKey d k = true) :
    dictGet (d.map (fun p => if p.1 = k then (k, v) else p)) k = some v := by
  induction d with
  | nil => simp [dictHasKey] at h
  | cons p t ih =>
    by_cases hp : p.1 = k
    · simp [List.map_cons, hp, dictGet]
    · simp only [dictHasKey, List.any_cons] at h
      have ht : dictHasKey t k = true := by
        rcases Bool.or_eq_true_iff.mp h with h1 | h1
        · exact absurd (of_decide_eq_true h1) hp
        · exact h1
      simp only [List.map_cons, hp, if_false, dictGet]
      exact ih ht

theorem dictGet_eq_none_of_not_hasKey {α : Type} (d : List (String × α))
    (k : String) (h : dictHasKey d k = false) : dictGet d k = none := by
  induction d with
  | nil => rfl
  | cons p t ih =>
    simp only [dictHasKey, Bool.or_eq_false_iff, decide_eq_false_iff_not] at h
    simp only [dictGet, h.1, if_false]
    exact ih h.2

theorem dictGet_append {α : Type} (d d' : List (String × α)) (k : String) :
    dictGet (d ++ d') k =
      match dictGet d k with
      | some v => some v
      | none => dictGet d' k := by
  induction d with
  | nil => rfl
  | cons p t ih =>
    by_cases hp : p.1 = k
    · simp [dictGet, hp]
    · simp only [List.cons_append, dictGet, hp, if_false]
      exact ih

/-- `dictSet` behaves like a functional map update under `dictGet`. -/
theorem dictGet_dictSet {α : Type} (d : List (String × α)) (k k' : String)
    (v : α) :
    dictGet (dictSet d k v) k' = if k' = k then some v else dictGet d k' := by
  unfold dictSet
  by_cases hk : dictHasKey d k = true
  · simp only [hk, if_true]
    by_cases h : k' = k
    · subst h
      simp [dictGet_map_set_self d k' v hk]
    · simp [h, dictGet_map_set_ne d k k' v h]
  · have hk' : dictHasKey d k = false := Bool.eq_false_iff.mpr hk
    simp only [hk', Bool.false_eq_true, if_false]
    rw [dictGet_append]
    by_cases h : k' = k
    · subst h
      rw [dictGet_eq_none_of_not_hasKey d k' hk']
      simp [dictGet]
    · cases hfd : dictGet d k' with
      | some w => simp [h]
      | none =>
        simp only [dictGet]
        rw [if_neg (fun hc => h hc.symm)]
        simp [h]

theorem dictGet_dictPop_self {α : Type} (d : List (String × α)) (k : String) :
    dictGet (dictPop d k) k = none := by
  induction d with
  | nil => rfl
  | cons p t ih =>
    by_cases hp : p.1 = k
    · simpa [dictPop, hp] using ih
    · simp only [dictPop, hp, if_false, dictGet]
      simpa [hp] using ih

theorem dictGet_dictPop_ne {α : Type} (d : List (String × α)) (k k' : String)
    (h : k' ≠ k) : dictGet (dictPop d k) k' = dictGet d k' := by
  induction d with
  | nil => rfl
  | cons p t ih =>
    by_cases hp : p.1 = k
    · have hk2 : ¬(k = k') := fun hc => h hc.symm
      simp only [dictPop, hp, if_true, dictGet, hk2, if_false]
      exact ih
    · simp only [dictPop, hp, if_false, dictGet]
      by_cases hpk : p.1 = k'
      · simp [hpk]
      · simp only [hpk, if_false]
        exact ih

theorem dictPop_idem {α : Type} (d : List (String × α)) (k : String) :
    dictPop (dictPop d k) k = dictPop d k := by
  induction d with
  | nil => rfl
  | cons p t ih =>
    by_cases hp : p.1 = k
    · simp [dictPop, hp, ih]
    · simp [dictPop, hp, ih]

theorem mem_of_dictGet_eq_some {α : Type} (d : List (String × α)) (k : String)
    (v : α) (h : dictGet d k = some v) : (k, v) ∈ d := by
  induction d with
  | nil => simp [dictGet] at h
  | cons p t ih =>
    by_cases hp : p.1 = k
    · simp only [dictGet, hp, if_true, Option.some.injEq] at h
      have hpv : p = (k, v) := by
        cases p
        simp_all
      rw [hpv]
      exact List.mem_cons_self _ _
    · simp only [dictGet, hp, if_false] at h
      right
      exact ih h

/-- An activity record, as stored in the `activities` dict of `app.py`. -/
structure Activity where
  description : String
  schedule : String
  max_participants : Nat
  participants : List String
deriving DecidableEq

/-- A FastAPI `HTTPException`: a status code and a detail message. -/
structure HTTPError where
  status_code : Nat
  detail : String
deriving DecidableEq

/-- The module-level mutable state of `app.py`: `teacher_credentials`,
`teacher_sessions` (session token -> username) and `activities`. -/
structure AppState where
  teacher_credentials : List (String × String)
  teacher_sessions : List (String × String)
  activities : List (String × Activity)
deriving DecidableEq

/-- One entry of the `teachers` array in `teachers.json`; `none` models a
missing `username`/`password` key (`teacher.get(...)` returning `None`). -/
structure TeacherEntry where
  username : Option String
  password : Option String
deriving DecidableEq

/-- One loop iteration of `load_teachers`: `if username and password:
teacher_credentials[username] = password`.  Python truthiness makes both
`None` and the empty string fall through silently. -/
def addTeacherEntry (acc : List (String × String)) (t : TeacherEntry) :
    List (String × String) :=
  match t.username, t.password with
  | some u, some p => if u ≠ "" ∧ p ≠ "" then dictSet acc u p else acc
  | _, _ => acc

/-- `load_teachers()`.  The input is the parsed `teachers` array of
`teachers.json`; `none` models a missing file.  `Except.error` models the
fatal `RuntimeError`s raised before the server can start. -/
def load_teachers (source : Option (List TeacherEntry)) :
    Except String (List (String × String)) :=
  match source with
  | none => Except.error "teachers.json not found in src directory"
  | some teachers =>
      let teacher_credentials := teachers.foldl addTeacherEntry []
      if teacher_credentials = [] then
        Except.error "No valid teacher credentials found in teachers.json"
      else Except.ok teacher_credentials

/-- `get_current_teacher(request)`: read the `teacher_session` cookie
(`none` = cookie absent) and resolve it in the session table.  Python's
`if not session_token` also rejects an empty-string cookie. -/
def get_current_teacher (sessions : List (String × String))
    (cookie : Option String) : Option String :=
  match cookie with
  | none => none
  | some session_token =>
      if session_token = "" then none
      else dictGet sessions session_token

/-- `require_teacher(request)`: 401 unless the cookie resolves to a (truthy)
username. -/
def require_teacher (sessions : List (String × String))
    (cookie : Option String) : Except HTTPError String :=
  match get_current_teacher sessions cookie with
  | none =>
      Except.error ⟨401, "Only logged-in teachers can register or unregister students"⟩
  | some teacher_username =>
      if teacher_username = "" then
        Except.error ⟨401, "Only logged-in teachers can register or unregister students"⟩
      else Except.ok teacher_username

/-- `login_teacher(credentials)`.  `session_token` stands for the value of
`secrets.token_urlsafe(32)`; the Python guard is
`if not expected_password or expected_password != credentials.password`. -/
def login_teacher (st : AppState) (username password session_token : String) :
    Except HTTPError String × AppState :=
  match dictGet st.teacher_credentials username with
  | none => (Except.error ⟨401, "Invalid username or password"⟩, st)
  | some expected_password =>
      if expected_password = "" ∨ expected_password ≠ password then
        (Except.error ⟨401, "Invalid username or password"⟩, st)
      else
        (Except.ok ("Logged in as " ++ username),
         { st with teacher_sessions :=
             dictSet st.teacher_sessions session_token username })

/-- `logout_teacher(request)`: `if session_token:
teacher_sessions.pop(session_token, None)`; always answers "Logged out". -/
def logout_teacher (st : AppState) (cookie : Option String) :
    String × AppState :=
  match cookie with
  | none => ("Logged out", st)
  | some session_token =>
      if session_token = "" then ("Logged out", st)
      else ("Logged out",
            { st with teacher_sessions := dictPop st.teacher_sessions session_token })

/-- `signup_for_activity(activity_name, email, request)`: auth gate first,
then 404 on unknown activity, 400 on duplicate email, else append. -/
def signup_for_activity (st : AppState) (cookie : Option String)
    (activity_name email : String) : Except HTTPError String × AppState :=
  match require_teacher st.teacher_sessions cookie with
  | Except.error e => (Except.error e, st)
  | Except.ok _ =>
      match dictGet st.activities activity_name with
      | none => (Except.error ⟨404, "Activity not found"⟩, st)
      | some activity =>
          if email ∈ activity.participants then
            (Except.error ⟨400, "Student is already signed up"⟩, st)
          else
            let activity' := { activity with participants := activity.participants ++ [email] }
            (Except.ok ("Signed up " ++ email ++ " for " ++ activity_name),
             { st with activities := dictSet st.activities activity_name activity' })

/-- `unregister_from_activity(activity_name, email, request)`: auth gate
first, then 404 on unknown activity, 400 if absent, else
`participants.remove(email)` (first occurrence). -/
def unregister_from_activity (st : AppState) (cookie : Option String)
    (activity_name email : String) : Except HTTPError String × AppState :=
  match require_teacher st.teacher_sessions cookie with
  | Except.error e => (Except.error e, st)
  | Except.ok _ =>
      match dictGet st.activities activity_name with
      | none => (Except.error ⟨404, "Activity not found"⟩, st)
      | some activity =>
          if email ∈ activity.participants then
            let activity' := { activity with participants := activity.participants.erase email }
            (Except.ok ("Unregistered " ++ email ++ " from " ++ activity_name),
             { st with activities := dictSet st.activities activity_name activity' })
          else
            (Except.error ⟨400, "Student is not signed up for this activity"⟩, st)

/-- The seed `activities` dict hard-coded at module level in `app.py`. -/
def seedActivities : List (String × Activity) :=
  [("Chess Club",
    { description := "Learn strategies and compete in chess tournaments",
      schedule := "Fridays, 3:30 PM - 5:00 PM",
      max_participants := 12,
      participants := ["michael@mergington.edu", "daniel@mergington.edu"] }),
   ("Programming Class",
    { description := "Learn programming fundamentals and build software projects",
      schedule := "Tuesdays and Thursdays, 3:30 PM - 4:30 PM",
      max_participants := 20,
      participants := ["emma@mergington.edu", "sophia@mergington.edu"] }),
   ("Gym Class",
    { description := "Physical education and sports activities",
      schedule := "Mondays, Wednesdays, Fridays, 2:00 PM - 3:00 PM",
      max_participants := 30,
      participants := ["john@mergington.edu", "olivia@mergington.edu"] }),
   ("Soccer Team",
    { description := "Join the school soccer team and compete in matches",
      schedule := "Tuesdays and Thursdays, 4:00 PM - 5:30 PM",
      max_participants := 22,
      participants := ["liam@mergington.edu", "noah@mergington.edu"] }),
   ("Basketball Team",
    { description := "Practice and play basketball with the school team",
      schedule := "Wednesdays and Fridays, 3:30 PM - 5:00 PM",
      max_participants := 15,
      participants := ["ava@mergington.edu", "mia@mergington.edu"] }),
   ("Art Club",
    { description := "Explore your creativity through painting and drawing",
      schedule := "Thursdays, 3:30 PM - 5:00 PM",
      max_participants := 15,
      participants := ["amelia@mergington.edu", "harper@mergington.edu"] }),
   ("Drama Club",
    { description := "Act, direct, and produce plays and performances",
      schedule := "Mondays and Wednesdays, 4:00 PM - 5:30 PM",
      max_participants := 20,
      participants := ["ella@mergington.edu", "scarlett@mergington.edu"] }),
   ("Math Club",
    { description := "Solve challenging problems and participate in math competitions",
      schedule := "Tuesdays, 3:30 PM - 4:30 PM",
      max_participants := 10,
      participants := ["james@mergington.edu", "benjamin@mergington.edu"] }),
   ("Debate Team",
    { description := "Develop public speaking and argumentation skills",
      schedule := "Fridays, 4:00 PM - 5:30 PM",
      max_participants := 12,
      participants := ["charlotte@mergington.edu", "henry@mergington.edu"] })]

/-- Process-start state: credentials as loaded from `teachers.json` (the
file is not part of the repository, so the loaded store is a parameter),
an empty session table, and the seed activities. -/
def initialState (creds : List (String × String)) : AppState :=
  { teacher_credentials := creds
    teacher_sessions := []
    activities := seedActivities }

/-- The fixed 401 error produced by `require_teacher`. -/
def authFailure : HTTPError :=
  ⟨401, "Only logged-in teachers can register or unregister students"⟩

/-- States reachable from process start by any sequence of API calls that
touch state: login, logout, signup, unregister.  (GET endpoints mutate
nothing.) -/
inductive Reachable (creds : List (String × String)) : AppState → Prop
  | init : Reachable creds (initialState creds)
  | login (st : AppState) (u p tok : String) (h : Reachable creds st) :
      Reachable creds (login_teacher st u p tok).2
  | logout (st : AppState) (cookie : Option String) (h : Reachable creds st) :
      Reachable creds (logout_teacher st cookie).2
  | signup (st : AppState) (cookie : Option String) (a e : String)
      (h : Reachable creds st) :
      Reachable creds (signup_for_activity st cookie a e).2
  | unregister (st : AppState) (cookie : Option String) (a e : String)
      (h : Reachable creds st) :
      Reachable creds (unregister_from_activity st cookie a e).2

/-- Every activity present in the registry has pairwise-distinct
participant emails. -/
def ActivitiesNodup (st : AppState) : Prop :=
  ∀ a act, dictGet st.activities a = some act → act.participants.Nodup

/-- Replace an activity's participant list, keeping the other fields. -/
def withParticipants (act : Activity) (ps : List String) : Activity :=
  { act with participants := ps }

/-- Store activity `a` back into the registry with a new participant list. -/
def setParticipants (st : AppState) (a : String) (act : Activity)
    (ps : List String) : AppState :=
  { st with activities := dictSet st.activities a (withParticipants act ps) }

/-- Successful signup: with an authenticated cookie, a known activity and a
new email, `signup_for_activity` returns 200 and appends the email. -/
theorem signup_ok (st : AppState) (cookie : Option String) (a e u : String)
    (act : Activity)
    (hu : require_teacher st.teacher_sessions cookie = Except.ok u)
    (hA : dictGet st.activities a = some act)
    (he : e ∉ act.participants) :
    signup_for_activity st cookie a e =
      (Except.ok ("Signed up " ++ e ++ " for " ++ a),
       setParticipants st a act (act.participants ++ [e])) := by
  unfold signup_for_activity
  rw [hu, hA]
  simp [he, setParticipants, withParticipants]

/-- Inversion of a successful signup. -/
theorem signup_ok_inv (st : AppState) (cookie : Option String)
    (a e msg : String) (st' : AppState)
    (h : signup_for_activity st cookie a e = (Except.ok msg, st')) :
    ∃ act, dictGet st.activities a = some act ∧ e ∉ act.participants ∧
      st' = setParticipants st a act (act.participants ++ [e]) := by
  unfold signup_for_activity at h
  cases hr : require_teacher st.teacher_sessions cookie with
  | error err => rw [hr] at h; simp at h
  | ok u =>
    rw [hr] at h
    cases hA : dictGet st.activities a with
    | none => rw [hA] at h; simp at h
    | some act =>
      rw [hA] at h
      by_cases he : e ∈ act.participants
      · simp [he] at h
      · simp only [he, if_false, Prod.mk.injEq] at h
        exact ⟨act, rfl, he, h.2.symm ▸ by simp [setParticipants, withParticipants]⟩

/-- Successful unregister: removes the first occurrence of the email. -/
theorem unregister_ok (st : AppState) (cookie : Option String) (a e u : String)
    (act : Activity)
    (hu : require_teacher st.teacher_sessions cookie = Except.ok u)
    (hA : dictGet st.activities a = some act)
    (he : e ∈ act.participants) :
    unregister_from_activity st cookie a e =
      (Except.ok ("Unregistered " ++ e ++ " from " ++ a),
       setParticipants st a act (act.participants.erase e)) := by
  unfold unregister_from_activity
  rw [hu, hA]
  simp [he, setParticipants, withParticipants]

/-- Inversion of a successful unregister. -/
theorem unregister_ok_inv (st : AppState) (cookie : Option String)
    (a e msg : String) (st' : AppState)
    (h : unregister_from_activity st cookie a e = (Except.ok msg, st')) :
    ∃ act, dictGet st.activities a = some act ∧ e ∈ act.participants ∧
      st' = setParticipants st a act (act.participants.erase e) := by
  unfold unregister_from_activity at h
  cases hr : require_teacher st.teacher_sessions cookie with
  | error err => rw [hr] at h; simp at h
  | ok u =>
    rw [hr] at h
    cases hA : dictGet st.activities a with
    | none => rw [hA] at h; simp at h
    | some act =>
      rw [hA] at h
      by_cases he : e ∈ act.participants
      · simp only [he, if_true, Prod.mk.injEq] at h
        exact ⟨act, rfl, he, h.2.symm ▸ by simp [setParticipants, withParticipants]⟩
      · simp [he] at h

/-- Login never touches the activity registry. -/
theorem login_activities_eq (st : AppState) (u p tok : String) :
    (login_teacher st u p tok).2.activities = st.activities := by
  unfold login_teacher
  cases dictGet st.teacher_credentials u with
  | none => rfl
  | some ep =>
      by_cases h : ep = "" ∨ ep ≠ p
      · simp [h]
      · simp [h]

/-- Logout never touches the activity registry. -/
theorem logout_activities_eq (st : AppState) (cookie : Option String) :
    (logout_teacher st cookie).2.activities = st.activities := by
  unfold logout_teacher
  cases cookie with
  | none => rfl
  | some tok =>
      by_cases h : tok = ""
      · simp [h]
      · simp [h]

/-- Signup preserves uniqueness of participant emails. -/
theorem activitiesNodup_signup (st : AppState) (cookie : Option String)
    (a e : String) (h : ActivitiesNodup st) :
    ActivitiesNodup (signup_for_activity st cookie a e).2 := by
  cases hres : signup_for_activity st cookie a e with
  | mk res st' =>
    cases res with
    | error err =>
        have : st' = st := by
          unfold signup_for_activity at hres
          cases hr : require_teacher st.teacher_sessions cookie with
          | error e2 => rw [hr] at hres; simp at hres; exact hres.2.symm
          | ok u =>
              rw [hr] at hres
              cases hA : dictGet st.activities a with
              | none => rw [hA] at hres; simp at hres; exact hres.2.symm
              | some act =>
                  rw [hA] at hres
                  by_cases he : e ∈ act.participants
                  · simp [he] at hres; exact hres.2.symm
                  · simp [he] at hres
        rw [this]
        exact h
    | ok msg =>
        obtain ⟨act, hA, he, hst⟩ := signup_ok_inv st cookie a e msg st' hres
        subst hst
        intro b bact hb
        simp only [setParticipants] at hb
        rw [dictGet_dictSet] at hb
        by_cases hba : b = a
        · rw [if_pos hba] at hb
          have hbact : bact = withParticipants act (act.participants ++ [e]) := by
            exact (Option.some.injEq _ _ ▸ hb).symm
          subst hbact
          have hnd := h a act hA
          simp [withParticipants, List.nodup_append, hnd, he]
        · rw [if_neg hba] at hb
          exact h b bact hb

/-- Unregister preserves uniqueness of participant emails. -/
theorem activitiesNodup_unregister (st : AppState) (cookie : Option String)
    (a e : String) (h : ActivitiesNodup st) :
    ActivitiesNodup (unregister_from_activity st cookie a e).2 := by
  cases hres : unregister_from_activity st cookie a e with
  | mk res st' =>
    cases res with
    | error err =>
        have : st' = st := by
          unfold unregister_from_activity at hres
          cases hr : require_teacher st.teacher_sessions cookie with
          | error e2 => rw [hr] at hres; simp at hres; exact hres.2.symm
          | ok u =>
              rw [hr] at hres
              cases hA : dictGet st.activities a with
              | none => rw [hA] at hres; simp at hres; exact hres.2.symm
              | some act =>
                  rw [hA] at hres
                  by_cases he : e ∈ act.participants
                  · simp [he] at hres
                  · simp [he] at hres; exact hres.2.symm
        rw [this]
        exact h
    | ok msg =>
        obtain ⟨act, hA, he, hst⟩ := unregister_ok_inv st cookie a e msg st' hres
        subst hst
        intro b bact hb
        simp only [setParticipants] at hb
        rw [dictGet_dictSet] at hb
        by_cases hba : b = a
        · rw [if_pos hba] at hb
          have hbact : bact = withParticipants act (act.participants.erase e) := by
            exact (Option.some.injEq _ _ ▸ hb).symm
          subst hbact
          have hnd := h a act hA
          exact hnd.erase e
        · rw [if_neg hba] at hb
          exact h b bact hb

/-- The seed registry has pairwise-distinct participants. -/
theorem activitiesNodup_initial (creds : List (String × String)) :
    ActivitiesNodup (initialState creds) := by
  intro a act hA
  revert hA
  unfold initialState seedActivities
  simp only [dictGet]
  repeat' split
  all_goals intro hA
  all_goals first
    | (cases hA; decide)
    | cases hA

/-- Every reachable state has pairwise-distinct participants. -/
theorem activitiesNodup_reachable (creds : List (String × String))
    (st : AppState) (h : Reachable creds st) : ActivitiesNodup st := by
  induction h with
  | init => exact activitiesNodup_initial creds
  | login st u p tok hr ih =>
      intro a act hA
      rw [login_activities_eq] at hA
      exact ih a act hA
  | logout st cookie hr ih =>
      intro a act hA
      rw [logout_activities_eq] at hA
      exact ih a act hA
  | signup st cookie a e hr ih => exact activitiesNodup_signup st cookie a e ih
  | unregister st cookie a e hr ih =>
      exact activitiesNodup_unregister st cookie a e ih

/-- Signup propagates an authentication failure unchanged. -/
theorem signup_autherr (st : AppState) (cookie : Option String) (a e : String)
    (err : HTTPError)
    (hu : require_teacher st.teacher_sessions cookie = Except.error err) :
    signup_for_activity st cookie a e = (Except.error err, st) := by
  unfold signup_for_activity
  rw [hu]

/-- Unregister propagates an authentication failure unchanged. -/
theorem unregister_autherr (st : AppState) (cookie : Option String)
    (a e : String) (err : HTTPError)
    (hu : require_teacher st.teacher_sessions cookie = Except.error err) :
    unregister_from_activity st cookie a e = (Except.error err, st) := by
  unfold unregister_from_activity
  rw [hu]

/-- Authenticated signup on an unknown activity: 404, state unchanged. -/
theorem signup_unknown (st : AppState) (cookie : Option String) (a e u : String)
    (hu : require_teacher st.teacher_sessions cookie = Except.ok u)
    (hA : dictGet st.activities a = none) :
    signup_for_activity st cookie a e =
      (Except.error ⟨404, "Activity not found"⟩, st) := by
  unfold signup_for_activity
  rw [hu, hA]

/-- Authenticated unregister on an unknown activity: 404, state unchanged. -/
theorem unregister_unknown (st : AppState) (cookie : Option String)
    (a e u : String)
    (hu : require_teacher st.teacher_sessions cookie = Except.ok u)
    (hA : dictGet st.activities a = none) :
    unregister_from_activity st cookie a e =
      (Except.error ⟨404, "Activity not found"⟩, st) := by
  unfold unregister_from_activity
  rw [hu, hA]

/-- Signup of an already-present email: 400, state unchanged. -/
theorem signup_dup (st : AppState) (cookie : Option String) (a e u : String)
    (act : Activity)
    (hu : require_teacher st.teacher_sessions cookie = Except.ok u)
    (hA : dictGet st.activities a = some act)
    (he : e ∈ act.participants) :
    signup_for_activity st cookie a e =
      (Except.error ⟨400, "Student is already signed up"⟩, st) := by
  unfold signup_for_activity
  rw [hu, hA]
  simp [he]

/-- Unregister of an absent email: 400, state unchanged. -/
theorem unregister_notreg (st : AppState) (cookie : Option String)
    (a e u : String) (act : Activity)
    (hu : require_teacher st.teacher_sessions cookie = Except.ok u)
    (hA : dictGet st.activities a = some act)
    (he : e ∉ act.participants) :
    unregister_from_activity st cookie a e =
      (Except.error ⟨400, "Student is not signed up for this activity"⟩, st) := by
  unfold unregister_from_activity
  rw [hu, hA]
  simp [he]

/-- A one-teacher credential store used for concrete witnesses. -/
def demoCreds : List (String × String) := [("teacher", "pw")]

/-- A concrete running state: one live session over the seed registry. -/
def demoState : AppState :=
  { teacher_credentials := demoCreds
    teacher_sessions := [("tok123", "teacher")]
    activities := seedActivities }

/-- A concrete activity that is already over its advertised capacity. -/
def tinyClub : Activity :=
  { description := "Tiny"
    schedule := "Mondays"
    max_participants := 1
    participants := ["a@mergington.edu", "b@mergington.edu"] }

/-- A state whose only activity is over capacity, with one live session. -/
def overfullState : AppState :=
  { teacher_credentials := demoCreds
    teacher_sessions := [("tok123", "teacher")]
    activities := [("Tiny Club", tinyClub)] }

/-- Claim C1: for every activity present in the registry and every email not
already among its participants, an authenticated signup succeeds and the new
participant list is the old list with the email appended at the end.  No
hypothesis relates `participants.length` to `max_participants`: the code
performs no capacity check, so this holds even over capacity. -/
theorem signup_appends_no_capacity_check (st : AppState) (cookie : Option String)
    (a e u : String) (act : Activity)
    (hu : require_teacher st.teacher_sessions cookie = Except.ok u)
    (hA : dictGet st.activities a = some act)
    (he : e ∉ act.participants) :
    (signup_for_activity st cookie a e).1 =
      Except.ok ("Signed up " ++ e ++ " for " ++ a) ∧
    dictGet (signup_for_activity st cookie a e).2.activities a =
      some (withParticipants act (act.participants ++ [e])) := by
  rw [signup_ok st cookie a e u act hu hA he]
  refine ⟨rfl, ?_⟩
  simp only [setParticipants]
  rw [dictGet_dictSet, if_pos rfl]

/-- Witness for C1, on an activity already over its `max_participants`
capacity (2 participants, capacity 1): the signup still succeeds. -/
theorem signup_appends_no_capacity_check_witness :
    require_teacher overfullState.teacher_sessions (some "tok123") =
      Except.ok "teacher" ∧
    dictGet overfullState.activities "Tiny Club" = some tinyClub ∧
    "c@mergington.edu" ∉ tinyClub.participants ∧
    tinyClub.max_participants ≤ tinyClub.participants.length ∧
    ((signup_for_activity overfullState (some "tok123") "Tiny Club"
        "c@mergington.edu").1 =
      Except.ok ("Signed up " ++ "c@mergington.edu" ++ " for " ++ "Tiny Club") ∧
     dictGet (signup_for_activity overfullState (some "tok123") "Tiny Club"
        "c@mergington.edu").2.activities "Tiny Club" =
      some (withParticipants tinyClub (tinyClub.participants ++ ["c@mergington.edu"]))) :=
  ⟨by decide, by decide, by decide, by decide,
   signup_appends_no_capacity_check overfullState (some "tok123") "Tiny Club"
     "c@mergington.edu" "teacher" tinyClub (by decide) (by decide) (by decide)⟩

/-- Counterexample to claim C2 as stated: on an unknown activity with no
session cookie, both mutation endpoints answer the fixed 401 of
`require_teacher`, not NotFound 404 — the auth gate runs first. -/
theorem unknown_activity_unauthenticated_401 :
    dictGet (initialState []).activities "Knitting Club" = none ∧
    signup_for_activity (initialState []) none "Knitting Club"
      "s@mergington.edu" = (Except.error authFailure, initialState []) ∧
    unregister_from_activity (initialState []) none "Knitting Club"
      "s@mergington.edu" = (Except.error authFailure, initialState []) ∧
    authFailure.status_code = 401 ∧ authFailure.status_code ≠ 404 := by decide

/-- Claim C2 (amended): on an unknown activity name, an authenticated signup
or unregister fails with NotFound 404 and leaves the state unchanged; an
unauthenticated request instead fails with the 401 of the auth gate, again
with the state unchanged. -/
theorem unknown_activity_notfound (st : AppState) (cookie : Option String)
    (a e u : String)
    (hA : dictGet st.activities a = none) :
    (require_teacher st.teacher_sessions cookie = Except.ok u →
       signup_for_activity st cookie a e =
         (Except.error ⟨404, "Activity not found"⟩, st) ∧
       unregister_from_activity st cookie a e =
         (Except.error ⟨404, "Activity not found"⟩, st)) ∧
    (require_teacher st.teacher_sessions cookie = Except.error authFailure →
       signup_for_activity st cookie a e = (Except.error authFailure, st) ∧
       unregister_from_activity st cookie a e = (Except.error authFailure, st)) := by
  constructor
  · intro hu
    exact ⟨signup_unknown st cookie a e u hu hA,
           unregister_unknown st cookie a e u hu hA⟩
  · intro hu
    exact ⟨signup_autherr st cookie a e authFailure hu,
           unregister_autherr st cookie a e authFailure hu⟩

/-- Witness for the amended C2: a live session and the unknown name
"Knitting Club". -/
theorem unknown_activity_notfound_witness :
    dictGet demoState.activities "Knitting Club" = none ∧
    ((require_teacher demoState.teacher_sessions (some "tok123") =
        Except.ok "teacher" →
      signup_for_activity demoState (some "tok123") "Knitting Club"
        "s@mergington.edu" = (Except.error ⟨404, "Activity not found"⟩, demoState) ∧
      unregister_from_activity demoState (some "tok123") "Knitting Club"
        "s@mergington.edu" = (Except.error ⟨404, "Activity not found"⟩, demoState)) ∧
     (require_teacher demoState.teacher_sessions (some "tok123") =
        Except.error authFailure →
      signup_for_activity demoState (some "tok123") "Knitting Club"
        "s@mergington.edu" = (Except.error authFailure, demoState) ∧
      unregister_from_activity demoState (some "tok123") "Knitting Club"
        "s@mergington.edu" = (Except.error authFailure, demoState))) :=
  ⟨by decide,
   unknown_activity_notfound demoState (some "tok123") "Knitting Club"
     "s@mergington.edu" "teacher" (by decide)⟩

/-- Claim C3: after a successful authenticated signup, immediately repeating
the same signup fails with 400 "Student is already signed up" and returns
the intermediate state unchanged (same participant list and length). -/
theorem duplicate_signup_rejected (st : AppState) (cookie : Option String)
    (a e u : String) (act : Activity)
    (hu : require_teacher st.teacher_sessions cookie = Except.ok u)
    (hA : dictGet st.activities a = some act)
    (he : e ∉ act.participants) :
    signup_for_activity (signup_for_activity st cookie a e).2 cookie a e =
      (Except.error ⟨400, "Student is already signed up"⟩,
       (signup_for_activity st cookie a e).2) := by
  rw [signup_ok st cookie a e u act hu hA he]
  refine signup_dup _ cookie a e u (withParticipants act (act.participants ++ [e]))
    hu ?_ ?_
  · simp only [setParticipants]
    rw [dictGet_dictSet, if_pos rfl]
  · simp [withParticipants]

/-- Witness for C3 on the seed Chess Club. -/
theorem duplicate_signup_rejected_witness :
    require_teacher demoState.teacher_sessions (some "tok123") =
      Except.ok "teacher" ∧
    dictGet demoState.activities "Chess Club" = some
      { description := "Learn strategies and compete in chess tournaments"
        schedule := "Fridays, 3:30 PM - 5:00 PM"
        max_participants := 12
        participants := ["michael@mergington.edu", "daniel@mergington.edu"] } ∧
    "new@mergington.edu" ∉
      ["michael@mergington.edu", "daniel@mergington.edu"] ∧
    signup_for_activity
        (signup_for_activity demoState (some "tok123") "Chess Club"
          "new@mergington.edu").2 (some "tok123") "Chess Club"
        "new@mergington.edu" =
      (Except.error ⟨400, "Student is already signed up"⟩,
       (signup_for_activity demoState (some "tok123") "Chess Club"
          "new@mergington.edu").2) :=
  ⟨by decide, by decide, by decide,
   duplicate_signup_rejected demoState (some "tok123") "Chess Club"
     "new@mergington.edu" "teacher"
     { description := "Learn strategies and compete in chess tournaments"
       schedule := "Fridays, 3:30 PM - 5:00 PM"
       max_participants := 12
       participants := ["michael@mergington.edu", "daniel@mergington.edu"] }
     (by decide) (by decide) (by decide)⟩

/-- Claim C4: for an activity present in the registry, an authenticated
unregister of an absent email fails with 400 and leaves the whole state
unchanged; of a present email it succeeds and removes the first occurrence
(`list.remove`). -/
theorem unregister_removes_or_rejects (st : AppState) (cookie : Option String)
    (a e u : String) (act : Activity)
    (hu : require_teacher st.teacher_sessions cookie = Except.ok u)
    (hA : dictGet st.activities a = some act) :
    (e ∉ act.participants →
       unregister_from_activity st cookie a e =
         (Except.error ⟨400, "Student is not signed up for this activity"⟩, st)) ∧
    (e ∈ act.participants →
       unregister_from_activity st cookie a e =
         (Except.ok ("Unregistered " ++ e ++ " from " ++ a),
          setParticipants st a act (act.participants.erase e))) :=
  ⟨fun he => unregister_notreg st cookie a e u act hu hA he,
   fun he => unregister_ok st cookie a e u act hu hA he⟩

/-- Witness for C4 on the seed Chess Club, covering both branches. -/
theorem unregister_removes_or_rejects_witness :
    require_teacher demoState.teacher_sessions (some "tok123") =
      Except.ok "teacher" ∧
    dictGet demoState.activities "Chess Club" = some
      { description := "Learn strategies and compete in chess tournaments"
        schedule := "Fridays, 3:30 PM - 5:00 PM"
        max_participants := 12
        participants := ["michael@mergington.edu", "daniel@mergington.edu"] } ∧
    (("ghost@mergington.edu" ∉
        (["michael@mergington.edu", "daniel@mergington.edu"] : List String) →
      unregister_from_activity demoState (some "tok123") "Chess Club"
          "ghost@mergington.edu" =
        (Except.error ⟨400, "Student is not signed up for this activity"⟩,
         demoState)) ∧
     ("daniel@mergington.edu" ∈
        (["michael@mergington.edu", "daniel@mergington.edu"] : List String) →
      unregister_from_activity demoState (some "tok123") "Chess Club"
          "daniel@mergington.edu" =
        (Except.ok ("Unregistered " ++ "daniel@mergington.edu" ++ " from " ++
           "Chess Club"),
         setParticipants demoState "Chess Club"
           { description := "Learn strategies and compete in chess tournaments"
             schedule := "Fridays, 3:30 PM - 5:00 PM"
             max_participants := 12
             participants := ["michael@mergington.edu", "daniel@mergington.edu"] }
           ((["michael@mergington.edu", "daniel@mergington.edu"] :
              List String).erase "daniel@mergington.edu")))) :=
  ⟨by decide, by decide,
   ⟨(unregister_removes_or_rejects demoState (some "tok123") "Chess Club"
       "ghost@mergington.edu" "teacher"
       { description := "Learn strategies and compete in chess tournaments"
         schedule := "Fridays, 3:30 PM - 5:00 PM"
         max_participants := 12
         participants := ["michael@mergington.edu", "daniel@mergington.edu"] }
       (by decide) (by decide)).1,
    (unregister_removes_or_rejects demoState (some "tok123") "Chess Club"
       "daniel@mergington.edu" "teacher"
       { description := "Learn strategies and compete in chess tournaments"
         schedule := "Fridays, 3:30 PM - 5:00 PM"
         max_participants := 12
         participants := ["michael@mergington.edu", "daniel@mergington.edu"] }
       (by decide) (by decide)).2⟩⟩

/-- Claim C5: a signup or unregister request whose session cookie is absent,
or whose token has no entry in the session table, fails with the one fixed
401 message of the shared `require_teacher` gate, and the whole state
(activities and session table included) is returned unchanged. -/
theorem unauthenticated_rejected (st : AppState) (cookie : Option String)
    (a e : String)
    (h : cookie = none ∨
         ∃ t, cookie = some t ∧ dictGet st.teacher_sessions t = none) :
    signup_for_activity st cookie a e = (Except.error authFailure, st) ∧
    unregister_from_activity st cookie a e = (Except.error authFailure, st) := by
  have hreq : require_teacher st.teacher_sessions cookie =
      Except.error authFailure := by
    rcases h with h | ⟨t, hc, ht⟩
    · subst h
      rfl
    · subst hc
      unfold require_teacher get_current_teacher
      by_cases h0 : t = ""
      · simp [h0, authFailure]
      · simp [h0, ht, authFailure]
  exact ⟨signup_autherr st cookie a e authFailure hreq,
         unregister_autherr st cookie a e authFailure hreq⟩

/-- Witness for C5: a token absent from the session table. -/
theorem unauthenticated_rejected_witness :
    ((some "badtok" : Option String) = none ∨
     ∃ t, (some "badtok" : Option String) = some t ∧
       dictGet demoState.teacher_sessions t = none) ∧
    (signup_for_activity demoState (some "badtok") "Chess Club"
       "new@mergington.edu" = (Except.error authFailure, demoState) ∧
     unregister_from_activity demoState (some "badtok") "Chess Club"
       "new@mergington.edu" = (Except.error authFailure, demoState)) :=
  ⟨Or.inr ⟨"badtok", rfl, by decide⟩,
   unauthenticated_rejected demoState (some "badtok") "Chess Club"
     "new@mergington.edu" (Or.inr ⟨"badtok", rfl, by decide⟩)⟩

/-- After any successful signup from this state, the signed-up email occurs
exactly once in that activity's participant list. -/
def SignupOncePost (st : AppState) : Prop :=
  ∀ cookie a e msg st',
    signup_for_activity st cookie a e = (Except.ok msg, st') →
    ∀ act', dictGet st'.activities a = some act' →
      act'.participants.count e = 1

/-- Claim C6: in every state reachable from process start by login, logout,
signup and unregister calls, every activity's participants are pairwise
distinct; and whenever a signup succeeds, the email appears exactly once
afterwards. -/
theorem reachable_participants_unique (creds : List (String × String))
    (st : AppState) (h : Reachable creds st) :
    ActivitiesNodup st ∧ SignupOncePost st := by
  refine ⟨activitiesNodup_reachable creds st h, ?_⟩
  intro cookie a e msg st' hs act' hact'
  obtain ⟨act, hA, he, hst⟩ := signup_ok_inv st cookie a e msg st' hs
  subst hst
  simp only [setParticipants] at hact'
  rw [dictGet_dictSet, if_pos rfl] at hact'
  have hact : act' = withParticipants act (act.participants ++ [e]) :=
    (Option.some.inj hact').symm
  subst hact
  simp only [withParticipants, List.count_append]
  rw [List.count_eq_zero.mpr he]
  simp

/-- Witness for C6 at the initial state. -/
theorem reachable_participants_unique_witness :
    ActivitiesNodup (initialState demoCreds) ∧
    SignupOncePost (initialState demoCreds) :=
  reachable_participants_unique demoCreds (initialState demoCreds)
    Reachable.init

/-- A credential store as `load_teachers` produces it: every username and
password is non-empty. -/
def ValidCredStore (creds : List (String × String)) : Prop :=
  ∀ q, q ∈ creds → q.1 ≠ "" ∧ q.2 ≠ ""

instance (creds : List (String × String)) : Decidable (ValidCredStore creds) :=
  inferInstanceAs (Decidable (∀ q ∈ creds, q.1 ≠ "" ∧ q.2 ≠ ""))

/-- Successful login: with a stored, non-empty password the session table
gains the token binding. -/
theorem login_ok (st : AppState) (username password tok : String)
    (hpw : password ≠ "")
    (hget : dictGet st.teacher_credentials username = some password) :
    login_teacher st username password tok =
      (Except.ok ("Logged in as " ++ username),
       { st with teacher_sessions := dictSet st.teacher_sessions tok username }) := by
  unfold login_teacher
  rw [hget]
  have hcond : ¬(password = "" ∨ password ≠ password) := by simp [hpw]
  simp [hcond, hpw]

/-- Claim C7: with a well-formed credential store, login with a stored
username/password pair succeeds, maps the fresh token to that username in
the session table (so a protected request presenting the token is
authorized); login with an unknown username or a wrong password fails with
401 and returns the state — session table included — unchanged. -/
theorem login_creates_session (st : AppState) (username password tok : String)
    (hcreds : ValidCredStore st.teacher_credentials)
    (htok : tok ≠ "") :
    (dictGet st.teacher_credentials username = some password →
       (login_teacher st username password tok).1 =
         Except.ok ("Logged in as " ++ username) ∧
       dictGet (login_teacher st username password tok).2.teacher_sessions tok =
         some username ∧
       require_teacher (login_teacher st username password tok).2.teacher_sessions
         (some tok) = Except.ok username) ∧
    (∀ pw, dictGet st.teacher_credentials username = some pw → pw ≠ password →
       login_teacher st username password tok =
         (Except.error ⟨401, "Invalid username or password"⟩, st)) ∧
    (dictGet st.teacher_credentials username = none →
       login_teacher st username password tok =
         (Except.error ⟨401, "Invalid username or password"⟩, st)) := by
  refine ⟨?_, ?_, ?_⟩
  · intro hget
    have hmem := mem_of_dictGet_eq_some _ _ _ hget
    have husr : username ≠ "" := (hcreds _ hmem).1
    have hpw : password ≠ "" := (hcreds _ hmem).2
    have hdict : dictGet (dictSet st.teacher_sessions tok username) tok =
        some username := by
      rw [dictGet_dictSet, if_pos rfl]
    rw [login_ok st username password tok hpw hget]
    refine ⟨rfl, hdict, ?_⟩
    show require_teacher (dictSet st.teacher_sessions tok username)
      (some tok) = Except.ok username
    unfold require_teacher get_current_teacher
    simp only [htok, if_false, hdict]
    simp [husr]
  · intro pw hget hne
    unfold login_teacher
    rw [hget]
    simp [hne]
  · intro hget
    unfold login_teacher
    rw [hget]

/-- Witness for C7: correct login, wrong password, unknown user. -/
theorem login_creates_session_witness :
    ValidCredStore demoState.teacher_credentials ∧ ("newtok" : String) ≠ "" ∧
    ((dictGet demoState.teacher_credentials "teacher" = some "pw" →
      (login_teacher demoState "teacher" "pw" "newtok").1 =
        Except.ok ("Logged in as " ++ "teacher") ∧
      dictGet (login_teacher demoState "teacher" "pw" "newtok").2.teacher_sessions
        "newtok" = some "teacher" ∧
      require_teacher
        (login_teacher demoState "teacher" "pw" "newtok").2.teacher_sessions
        (some "newtok") = Except.ok "teacher") ∧
     (∀ pw, dictGet demoState.teacher_credentials "teacher" = some pw →
        pw ≠ "pw" → login_teacher demoState "teacher" "pw" "newtok" =
          (Except.error ⟨401, "Invalid username or password"⟩, demoState)) ∧
     (dictGet demoState.teacher_credentials "teacher" = none →
        login_teacher demoState "teacher" "pw" "newtok" =
          (Except.error ⟨401, "Invalid username or password"⟩, demoState))) :=
  ⟨by decide, by decide,
   login_creates_session demoState "teacher" "pw" "newtok" (by decide)
     (by decide)⟩

/-- Claim C8: logout with a cookie token removes that token's binding from
the session table, never errors (it answers "Logged out" even with no
cookie), is idempotent, and afterwards a protected request presenting the
destroyed token fails with the 401 of the auth gate, on both routes. -/
theorem logout_destroys_session (st : AppState) (t : String) (ht : t ≠ "") :
    (logout_teacher st (some t)).1 = "Logged out" ∧
    (logout_teacher st (some t)).2.teacher_sessions =
      dictPop st.teacher_sessions t ∧
    dictGet (logout_teacher st (some t)).2.teacher_sessions t = none ∧
    (logout_teacher (logout_teacher st (some t)).2 (some t)).2 =
      (logout_teacher st (some t)).2 ∧
    logout_teacher st none = ("Logged out", st) ∧
    (∀ a e, signup_for_activity (logout_teacher st (some t)).2 (some t) a e =
       (Except.error authFailure, (logout_teacher st (some t)).2)) ∧
    (∀ a e,
       unregister_from_activity (logout_teacher st (some t)).2 (some t) a e =
       (Except.error authFailure, (logout_teacher st (some t)).2)) := by
  have hlog : logout_teacher st (some t) =
      ("Logged out", { st with teacher_sessions := dictPop st.teacher_sessions t }) := by
    unfold logout_teacher
    simp [ht]
  have hreq : ∀ st2 : AppState,
      st2.teacher_sessions = dictPop st.teacher_sessions t →
      require_teacher st2.teacher_sessions (some t) =
        Except.error authFailure := by
    intro st2 hs
    unfold require_teacher get_current_teacher
    rw [hs]
    simp [ht, dictGet_dictPop_self, authFailure]
  rw [hlog]
  refine ⟨rfl, rfl, dictGet_dictPop_self _ _, ?_, ?_, ?_, ?_⟩
  · unfold logout_teacher
    simp [ht, dictPop_idem]
  · rfl
  · intro a e
    exact signup_autherr _ (some t) a e authFailure (hreq _ rfl)
  · intro a e
    exact unregister_autherr _ (some t) a e authFailure (hreq _ rfl)

/-- Witness for C8 with the live demo session token. -/
theorem logout_destroys_session_witness :
    ("tok123" : String) ≠ "" ∧
    ((logout_teacher demoState (some "tok123")).1 = "Logged out" ∧
     (logout_teacher demoState (some "tok123")).2.teacher_sessions =
       dictPop demoState.teacher_sessions "tok123" ∧
     dictGet (logout_teacher demoState (some "tok123")).2.teacher_sessions
       "tok123" = none ∧
     (logout_teacher (logout_teacher demoState (some "tok123")).2
        (some "tok123")).2 = (logout_teacher demoState (some "tok123")).2 ∧
     logout_teacher demoState none = ("Logged out", demoState) ∧
     (∀ a e, signup_for_activity (logout_teacher demoState (some "tok123")).2
        (some "tok123") a e =
        (Except.error authFailure,
         (logout_teacher demoState (some "tok123")).2)) ∧
     (∀ a e, unregister_from_activity
        (logout_teacher demoState (some "tok123")).2 (some "tok123") a e =
        (Except.error authFailure,
         (logout_teacher demoState (some "tok123")).2))) :=
  ⟨by decide, logout_destroys_session demoState "tok123" (by decide)⟩

/-- Everything a successful mutation of activity `a` must leave untouched:
credentials, sessions, every other activity, and `a`'s own description,
schedule and capacity. -/
def FramePreserved (st st' : AppState) (a : String) : Prop :=
  st'.teacher_credentials = st.teacher_credentials ∧
  st'.teacher_sessions = st.teacher_sessions ∧
  (∀ b, b ≠ a → dictGet st'.activities b = dictGet st.activities b) ∧
  (∀ act act', dictGet st.activities a = some act →
     dictGet st'.activities a = some act' →
     act'.description = act.description ∧ act'.schedule = act.schedule ∧
     act'.max_participants = act.max_participants)

/-- Claim C10: a successful signup or unregister on activity `a` changes
only `a`'s participant list; credentials, sessions, all other activities
and `a`'s other fields are identical before and after. -/
theorem mutation_frame (st : AppState) (cookie : Option String)
    (a e msg : String) (st' : AppState) :
    (signup_for_activity st cookie a e = (Except.ok msg, st') →
       FramePreserved st st' a) ∧
    (unregister_from_activity st cookie a e = (Except.ok msg, st') →
       FramePreserved st st' a) := by
  constructor
  · intro h
    obtain ⟨act, hA, he, hst⟩ := signup_ok_inv st cookie a e msg st' h
    subst hst
    refine ⟨rfl, rfl, ?_, ?_⟩
    · intro b hb
      simp only [setParticipants]
      rw [dictGet_dictSet, if_neg hb]
    · intro act0 act1 h0 h1
      simp only [setParticipants] at h1
      rw [dictGet_dictSet, if_pos rfl] at h1
      have h01 : act0 = act := by
        rw [hA] at h0
        exact (Option.some.inj h0).symm
      have h1' : act1 = withParticipants act (act.participants ++ [e]) :=
        (Option.some.inj h1).symm
      subst h01
      subst h1'
      exact ⟨rfl, rfl, rfl⟩
  · intro h
    obtain ⟨act, hA, he, hst⟩ := unregister_ok_inv st cookie a e msg st' h
    subst hst
    refine ⟨rfl, rfl, ?_, ?_⟩
    · intro b hb
      simp only [setParticipants]
      rw [dictGet_dictSet, if_neg hb]
    · intro act0 act1 h0 h1
      simp only [setParticipants] at h1
      rw [dictGet_dictSet, if_pos rfl] at h1
      have h01 : act0 = act := by
        rw [hA] at h0
        exact (Option.some.inj h0).symm
      have h1' : act1 = withParticipants act (act.participants.erase e) :=
        (Option.some.inj h1).symm
      subst h01
      subst h1'
      exact ⟨rfl, rfl, rfl⟩

/-- The state after the witness signup for C10. -/
def demoAfterSignup : AppState :=
  (signup_for_activity demoState (some "tok123") "Chess Club"
    "new@mergington.edu").2

/-- The state after the witness unregister for C10. -/
def demoAfterUnregister : AppState :=
  (unregister_from_activity demoState (some "tok123") "Chess Club"
    "daniel@mergington.edu").2

/-- Witness for C10: one successful signup and one successful unregister on
the seed Chess Club. -/
theorem mutation_frame_witness :
    signup_for_activity demoState (some "tok123") "Chess Club"
      "new@mergington.edu" =
      (Except.ok "Signed up new@mergington.edu for Chess Club",
       demoAfterSignup) ∧
    FramePreserved demoState demoAfterSignup "Chess Club" ∧
    unregister_from_activity demoState (some "tok123") "Chess Club"
      "daniel@mergington.edu" =
      (Except.ok "Unregistered daniel@mergington.edu from Chess Club",
       demoAfterUnregister) ∧
    FramePreserved demoState demoAfterUnregister "Chess Club" :=
  ⟨by decide,
   (mutation_frame demoState (some "tok123") "Chess Club" "new@mergington.edu"
     "Signed up new@mergington.edu for Chess Club" demoAfterSignup).1
     (by decide),
   by decide,
   (mutation_frame demoState (some "tok123") "Chess Club"
     "daniel@mergington.edu"
     "Unregistered daniel@mergington.edu from Chess Club"
     demoAfterUnregister).2 (by decide)⟩

/-- A `teachers.json` entry is valid exactly when both fields are present
and non-empty (the `if username and password` guard). -/
def isValidEntry (t : TeacherEntry) : Bool :=
  match t.username, t.password with
  | some u, some p => if u ≠ "" ∧ p ≠ "" then true else false
  | _, _ => false

/-- Fold step computing the password of the last valid entry for a given
username. -/
def lastValidStep (u : String) (acc : Option String) (t : TeacherEntry) :
    Option String :=
  match t.username, t.password with
  | some u2, some p => if u2 = u ∧ u2 ≠ "" ∧ p ≠ "" then some p else acc
  | _, _ => acc

/-- Password of the last valid entry carrying username `u`, if any. -/
def lastValid (ts : List TeacherEntry) (u : String) : Option String :=
  ts.foldl (lastValidStep u) none

theorem lastValid_shift (ts : List TeacherEntry) (u : String)
    (a : Option String) :
    ts.foldl (lastValidStep u) a =
      match ts.foldl (lastValidStep u) none with
      | some p => some p
      | none => a := by
  induction ts generalizing a with
  | nil => rfl
  | cons t ts ih =>
    simp only [List.foldl_cons]
    rw [ih (lastValidStep u a t), ih (lastValidStep u none t)]
    cases hts : ts.foldl (lastValidStep u) none with
    | some p => rfl
    | none =>
      unfold lastValidStep
      rcases t with ⟨tu, tp⟩
      cases tu with
      | none => cases tp <;> rfl
      | some u2 =>
        cases tp with
        | none => rfl
        | some p =>
          dsimp only
          by_cases hv : u2 = u ∧ u2 ≠ "" ∧ p ≠ ""
          · rw [if_pos hv, if_pos hv]
          · rw [if_neg hv, if_neg hv]

theorem dictGet_load_foldl (ts : List TeacherEntry)
    (acc : List (String × String)) (u : String) :
    dictGet (ts.foldl addTeacherEntry acc) u =
      match lastValid ts u with
      | some p => some p
      | none => dictGet acc u := by
  induction ts generalizing acc with
  | nil => rfl
  | cons t ts ih =>
    simp only [List.foldl_cons]
    rw [ih (addTeacherEntry acc t)]
    have hshift : lastValid (t :: ts) u =
        match lastValid ts u with
        | some p => some p
        | none => lastValidStep u none t := by
      unfold lastValid
      simp only [List.foldl_cons]
      exact lastValid_shift ts u (lastValidStep u none t)
    rw [hshift]
    cases hts : lastValid ts u with
    | some p => rfl
    | none =>
      unfold addTeacherEntry lastValidStep
      rcases t with ⟨tu, tp⟩
      cases tu with
      | none => cases tp <;> rfl
      | some u2 =>
        cases tp with
        | none => rfl
        | some p =>
          dsimp only
          by_cases hv : u2 ≠ "" ∧ p ≠ ""
          · rw [if_pos hv]
            by_cases huu : u2 = u
            · subst huu
              rw [dictGet_dictSet, if_pos rfl, if_pos ⟨rfl, hv⟩]
            · rw [dictGet_dictSet, if_neg (fun hc => huu hc.symm),
                  if_neg (fun hc => huu hc.1)]
          · rw [if_neg hv, if_neg (fun hc => hv ⟨hc.2.1, hc.2.2⟩)]

theorem dictSet_ne_nil {α : Type} (d : List (String × α)) (k : String)
    (v : α) : dictSet d k v ≠ [] := by
  unfold dictSet
  by_cases hk : dictHasKey d k = true
  · simp only [hk, if_true]
    intro h
    rw [List.map_eq_nil_iff] at h
    subst h
    simp [dictHasKey] at hk
  · have hk' : dictHasKey d k = false := Bool.eq_false_iff.mpr hk
    simp [hk']

theorem addTeacherEntry_ne_nil (acc : List (String × String))
    (t : TeacherEntry) (h : acc ≠ []) : addTeacherEntry acc t ≠ [] := by
  unfold addTeacherEntry
  rcases t with ⟨tu, tp⟩
  cases tu with
  | none => cases tp <;> exact h
  | some u2 =>
    cases tp with
    | none => exact h
    | some p =>
      dsimp only
      by_cases hv : u2 ≠ "" ∧ p ≠ ""
      · rw [if_pos hv]
        exact dictSet_ne_nil acc u2 p
      · rw [if_neg hv]
        exact h

theorem foldl_addTeacherEntry_ne_nil (ts : List TeacherEntry)
    (acc : List (String × String)) (h : acc ≠ []) :
    ts.foldl addTeacherEntry acc ≠ [] := by
  induction ts generalizing acc with
  | nil => exact h
  | cons t ts ih =>
    simp only [List.foldl_cons]
    exact ih _ (addTeacherEntry_ne_nil acc t h)

theorem foldl_addTeacherEntry_all_invalid (ts : List TeacherEntry)
    (acc : List (String × String))
    (h : ∀ t, t ∈ ts → isValidEntry t = false) :
    ts.foldl addTeacherEntry acc = acc := by
  induction ts generalizing acc with
  | nil => rfl
  | cons t ts ih =>
    have ht := h t (List.mem_cons_self t ts)
    have hstep : addTeacherEntry acc t = acc := by
      unfold addTeacherEntry
      unfold isValidEntry at ht
      rcases t with ⟨tu, tp⟩
      cases tu with
      | none => cases tp <;> rfl
      | some u2 =>
        cases tp with
        | none => rfl
        | some p =>
          by_cases hv : u2 ≠ "" ∧ p ≠ ""
          · simp [hv] at ht
          · simp [hv]
    simp only [List.foldl_cons, hstep]
    exact ih acc (fun t2 ht2 => h t2 (List.mem_cons_of_mem t ht2))

theorem foldl_addTeacherEntry_valid_ne_nil (ts : List TeacherEntry)
    (acc : List (String × String)) (t : TeacherEntry) (ht : t ∈ ts)
    (hv : isValidEntry t = true) :
    ts.foldl addTeacherEntry acc ≠ [] := by
  revert ht
  induction ts generalizing acc with
  | nil => intro ht; cases ht
  | cons t2 ts ih =>
    intro ht
    simp only [List.foldl_cons]
    rcases List.mem_cons.mp ht with h1 | h1
    · subst h1
      have hstep : addTeacherEntry acc t ≠ [] := by
        unfold addTeacherEntry
        unfold isValidEntry at hv
        rcases t with ⟨tu, tp⟩
        cases tu with
        | none => cases tp <;> simp at hv
        | some u2 =>
          cases tp with
          | none => simp at hv
          | some p =>
            dsimp only at hv ⊢
            by_cases hv2 : u2 ≠ "" ∧ p ≠ ""
            · rw [if_pos hv2]
              exact dictSet_ne_nil acc u2 p
            · simp [hv2] at hv
      exact foldl_addTeacherEntry_ne_nil ts _ hstep
    · exact ih _ h1

/-- The duplicate-username input refuting the mapping clause of claim C9. -/
def dupEntries : List TeacherEntry :=
  [⟨some "smith", some "pw1"⟩, ⟨some "smith", some "pw2"⟩]

/-- Counterexample to claim C9 as stated: both entries are valid and share
the username "smith", yet the loaded store maps "smith" to "pw2" only —
the first valid entry's username is NOT mapped to its own password. -/
theorem load_teachers_duplicate_username :
    isValidEntry ⟨some "smith", some "pw1"⟩ = true ∧
    dupEntries.head? = some ⟨some "smith", some "pw1"⟩ ∧
    load_teachers (some dupEntries) = Except.ok [("smith", "pw2")] ∧
    dictGet [("smith", "pw2")] "smith" ≠ some "pw1" := by decide

/-- Claim C9 (amended): loading fails fatally iff the source is missing or
has zero valid entries (valid = both fields present and non-empty; invalid
entries are skipped silently — they never make loading fail); on success
the result maps each username to the password of the LAST valid entry with
that username (`lastValid`), and usernames with no valid entry to nothing. -/
theorem load_teachers_amended (source : Option (List TeacherEntry)) :
    ((∃ creds, load_teachers source = Except.ok creds) ↔
       ∃ ts, source = some ts ∧ ∃ t, t ∈ ts ∧ isValidEntry t = true) ∧
    (∀ ts creds u, source = some ts →
       load_teachers source = Except.ok creds →
       dictGet creds u = lastValid ts u) := by
  constructor
  · constructor
    · rintro ⟨creds, hok⟩
      cases source with
      | none => simp [load_teachers] at hok
      | some ts =>
        refine ⟨ts, rfl, ?_⟩
        by_contra hno
        push_neg at hno
        have hall : ∀ t, t ∈ ts → isValidEntry t = false :=
          fun t ht => Bool.eq_false_iff.mpr (hno t ht)
        have hnil := foldl_addTeacherEntry_all_invalid ts [] hall
        unfold load_teachers at hok
        simp [hnil] at hok
    · rintro ⟨ts, hs, t, ht, hv⟩
      subst hs
      have hne := foldl_addTeacherEntry_valid_ne_nil ts [] t ht hv
      unfold load_teachers
      simp only [hne, if_false]
      exact ⟨ts.foldl addTeacherEntry [], rfl⟩
  · intro ts creds u hs hok
    subst hs
    unfold load_teachers at hok
    by_cases hnil : ts.foldl addTeacherEntry [] = []
    · simp [hnil] at hok
    · simp only [hnil, if_false] at hok
      have hcreds : ts.foldl addTeacherEntry [] = creds :=
        Except.ok.inj hok
      rw [← hcreds, dictGet_load_foldl ts [] u]
      cases lastValid ts u <;> rfl

/-- Witness for the amended C9 at the duplicate-username input. -/
theorem load_teachers_amended_witness :
    (∃ creds, load_teachers (some dupEntries) = Except.ok creds) ∧
    dictGet [("smith", "pw2")] "smith" = lastValid dupEntries "smith" :=
  ⟨(load_teachers_amended (some dupEntries)).1.mpr
     ⟨dupEntries, rfl, ⟨some "smith", some "pw1"⟩, by decide, by decide⟩,
   (load_teachers_amended (some dupEntries)).2 dupEntries [("smith", "pw2")]
     "smith" rfl (by decide)⟩

end Mergington
